import Mathlib

/-
Verification of the JarvisX STT service core (src/services/stt/main.py).

Shallow embedding conventions:
  - The filesystem is an explicit state `FS`: a list of (path, bytes) pairs
    plus a counter used to generate unique temporary file names
    (modelling tempfile.NamedTemporaryFile(delete=False, suffix=ext)).
  - The Whisper model handle is `Option Engine`; `none` models the global
    `whisper_model` being unset (falsy).  A loaded engine is an opaque
    function from (path, language hint, word_timestamps) to either an
    engine result or an exception message (`Except String EngineResult`).
  - Raised HTTPExceptions become the `Except.error` side of the result;
    `str(exc)` of an HTTPException is modelled as its `detail` message.
  - Numeric fields passed through from the engine (start, end, duration)
    are carried as `Int`; the code performs no arithmetic on them, it only
    copies them into the response.
  - `os.unlink` is modelled with an oracle `unlinkOk : String → Bool`
    deciding whether deletion succeeds; a failed deletion raises OSError in
    the source, which the source catches and ignores (`except OSError: pass`).
-/

namespace JarvisX

/-- Python str.strip() on the ASCII whitespace characters: removes leading and
trailing whitespace from a string (models `result["text"].strip()`). -/
def isSpaceChar (c : Char) : Bool :=
  c = ' ' || c = '\t' || c = '\n' || c = '\r' || c.toNat = 11 || c.toNat = 12

def pyStrip (s : String) : String :=
  String.mk (((s.toList.dropWhile isSpaceChar).reverse.dropWhile isSpaceChar).reverse)

/-- Python str.lower() restricted to ASCII case mapping (models `.lower()`). -/
def pyLower (s : String) : String :=
  String.mk (s.toList.map Char.toLower)

/-- Index of the last occurrence of a character in a list, if any. -/
def lastIdx (cs : List Char) (c : Char) : Option Nat :=
  ((List.range cs.length).filter (fun i => cs.getD i ' ' == c)).getLast?

/-- os.path.splitext (posixpath): the extension starts at the last dot,
provided some character of the basename before that dot is not itself a dot
(so leading dots of a hidden file never start an extension). -/
def splitext (p : String) : String × String :=
  let cs := p.toList
  let sepIndex : Int := match lastIdx cs '/' with | some i => (i : Int) | none => -1
  let dotIndex : Int := match lastIdx cs '.' with | some i => (i : Int) | none => -1
  if dotIndex > sepIndex &&
      (List.range cs.length).any (fun j =>
        decide (sepIndex < (j : Int)) && decide ((j : Int) < dotIndex) &&
          (cs.getD j '.' != '.')) then
    (String.mk (cs.take dotIndex.toNat), String.mk (cs.drop dotIndex.toNat))
  else
    (p, "")

/-- The allowed audio container extensions (lower case), from line 82. -/
def allowed_extensions : List String :=
  [".wav", ".mp3", ".m4a", ".flac", ".ogg", ".webm"]

/-- One rendering of the Python set repr of `allowed_extensions` as it is
interpolated into the 400 detail message (set iteration order is fixed here
as a modelling choice). -/
def allowedRepr : String :=
  "\x7b\x27.wav\x27, \x27.mp3\x27, \x27.m4a\x27, \x27.flac\x27, \x27.ogg\x27, \x27.webm\x27\x7d"

/-- An uploaded file: name plus raw bytes. -/
structure UploadFile where
  filename : String
  content : List Nat
deriving DecidableEq, Repr, Inhabited

/-- The filesystem state: existing files (path and contents) and a counter
feeding fresh temporary names. -/
structure FS where
  files : List (String × List Nat)
  counter : Nat
deriving DecidableEq, Repr

/-- Paths of the files that currently exist. -/
def FS.names (fs : FS) : List String := fs.files.map Prod.fst

/-- Name generated by tempfile.NamedTemporaryFile for the n-th acquisition,
carrying the requested suffix. -/
def tempName (n : Nat) (suffix : String) : String :=
  "/tmp/tmp" ++ toString n ++ suffix

/-- Remove every entry at the given path (os.unlink on the model state). -/
def FS.unlinkAll (fs : FS) (path : String) : FS :=
  { files := fs.files.filter (fun e => e.1 != path), counter := fs.counter }

/-- The finally-block of transcribe_audio: attempt os.unlink(path); when the
oracle says deletion fails, the OSError is caught and ignored and the file
stays (`except OSError: pass`). -/
def tryUnlink (unlinkOk : String → Bool) (path : String) (fs : FS) : FS :=
  if unlinkOk path then fs.unlinkAll path else fs

/-- A segment as produced by the engine and as copied into the response:
start time, end time, text. -/
structure Segment where
  start : Int
  «end» : Int
  text : String
deriving DecidableEq, Repr

/-- The dictionary returned by whisper_model.transcribe: "text" is always
present; "language", "duration" and "segments" may be absent. -/
structure EngineResult where
  text : String
  language : Option String
  duration : Option Int
  segments : Option (List Segment)
deriving DecidableEq, Repr

/-- The loaded Whisper model as an opaque capability:
(file path, language hint or auto-detect, word_timestamps) to either a
result or a raised exception message. -/
abbrev Engine := String → Option String → Bool → Except String EngineResult

/-- fastapi.HTTPException as raised by the handlers. -/
structure HTTPException where
  status_code : Nat
  detail : String
deriving DecidableEq, Repr

/-- The response dictionary built on success: keys text, language, duration,
filename, and optionally segments. -/
structure TranscribeResponse where
  text : String
  language : Option String
  duration : Int
  filename : String
  segments : Option (List Segment)
deriving DecidableEq, Repr

instance {ε α : Type} [DecidableEq ε] [DecidableEq α] : DecidableEq (Except ε α) := fun a b =>
  match a, b with
  | .ok x, .ok y =>
    if h : x = y then .isTrue (by rw [h]) else .isFalse (fun hh => by cases hh; exact h rfl)
  | .error x, .error y =>
    if h : x = y then .isTrue (by rw [h]) else .isFalse (fun hh => by cases hh; exact h rfl)
  | .ok _, .error _ => .isFalse (fun hh => by cases hh)
  | .error _, .ok _ => .isFalse (fun hh => by cases hh)

/-- Line 103: `language if language in ["si", "en"] else None`. -/
def effLang (language : Option String) : Option String :=
  if language = some "si" ∨ language = some "en" then language else none

/-- The staging path that a call starting from state fs will use for
the given upload. -/
def stagingPath (file : UploadFile) (fs : FS) : String :=
  tempName fs.counter (pyLower (splitext file.filename).2)

/-- POST /transcribe (lines 61-136).  Returns the primary outcome (response
or raised HTTPException) together with the final filesystem state. -/
def transcribe_audio (whisper_model : Option Engine) (unlinkOk : String → Bool)
    (file : UploadFile) (language : Option String) (timestamp : Bool) (fs : FS) :
    Except HTTPException TranscribeResponse × FS :=
  match whisper_model with
  | none => (.error { status_code := 500, detail := "Whisper model not loaded" }, fs)
  | some model =>
    let file_ext := pyLower (splitext file.filename).2
    if file_ext ∉ allowed_extensions then
      (.error { status_code := 400,
                detail := "Unsupported file type: " ++ file_ext ++ ". Allowed: " ++ allowedRepr },
       fs)
    else
      -- tempfile.NamedTemporaryFile(delete=False, suffix=file_ext); write(content)
      let temp_file_path := tempName fs.counter file_ext
      let fs1 : FS := { files := (temp_file_path, file.content) :: fs.files,
                        counter := fs.counter + 1 }
      let outcome : Except HTTPException TranscribeResponse :=
        match model temp_file_path (effLang language) timestamp with
        | .error e =>
          -- except Exception as e: raise HTTPException(500, f"Transcription failed: {e}")
          .error { status_code := 500, detail := "Transcription failed: " ++ e }
        | .ok result =>
          .ok { text := pyStrip result.text
                , language := match result.language with
                              | some l => some l
                              | none => language
                , duration := result.duration.getD 0
                , filename := file.filename
                , segments :=
                    if timestamp then
                      result.segments.map (fun segs =>
                        segs.map (fun s => { start := s.start, «end» := s.«end», text := s.text }))
                    else none }
      -- finally: try os.unlink(temp_file_path) except OSError: pass
      (outcome, tryUnlink unlinkOk temp_file_path fs1)

/-- A JSON value, for stating what the batch endpoint actually embeds under
the "result" key of a successful item. -/
inductive Json where
  | null
  | str (s : String)
  | num (n : Int)
  | arr (elems : List Json)
  | obj (fields : List (String × Json))

instance : Inhabited Json := ⟨Json.null⟩

/-- Constructor tag of a JSON value (used to separate strings from objects). -/
def Json.ctorIdx : Json → Nat
  | .null => 0
  | .str _ => 1
  | .num _ => 2
  | .arr _ => 3
  | .obj _ => 4

/-- Hex digit (lower case), as used by json.dumps for control characters. -/
def hexDigit (n : Nat) : Char :=
  if n < 10 then Char.ofNat (48 + n) else Char.ofNat (87 + n)

/-- Escape one character the way json.dumps (ensure_ascii=False) does. -/
def escapeChar (c : Char) : String :=
  if c = '"' then "\\\""
  else if c = '\\' then "\\\\"
  else if c = '\n' then "\\n"
  else if c = '\r' then "\\r"
  else if c = '\t' then "\\t"
  else if c.toNat = 8 then "\\b"
  else if c.toNat = 12 then "\\f"
  else if c.toNat < 32 then
    "\\u00" ++ String.singleton (hexDigit (c.toNat / 16 % 16)) ++ String.singleton (hexDigit (c.toNat % 16))
  else String.singleton c

/-- JSON string literal rendering. -/
def renderJsonString (s : String) : String :=
  "\"" ++ String.join (s.toList.map escapeChar) ++ "\""

/-- Render an optional string field (absent engine language renders the
caller hint, which may be null). -/
def renderOptStr : Option String → String
  | some s => renderJsonString s
  | none => "null"

/-- Compact rendering of one segment object. -/
def renderSegment (s : Segment) : String :=
  "\x7b\"start\":" ++ toString s.start ++ ",\"end\":" ++ toString s.«end» ++
    ",\"text\":" ++ renderJsonString s.text ++ "\x7d"

/-- Compact rendering of the segments array. -/
def renderSegments (segs : List Segment) : String :=
  "[" ++ String.intercalate "," (segs.map renderSegment) ++ "]"

/-- JSONResponse.render of the success response dictionary: json.dumps with
compact separators, keys in insertion order.  This is the string that
`result.body.decode()` yields inside transcribe_batch. -/
def responseBody (r : TranscribeResponse) : String :=
  "\x7b\"text\":" ++ renderJsonString r.text ++
    ",\"language\":" ++ renderOptStr r.language ++
    ",\"duration\":" ++ toString r.duration ++
    ",\"filename\":" ++ renderJsonString r.filename ++
    (match r.segments with
     | some segs => ",\"segments\":" ++ renderSegments segs
     | none => "") ++ "\x7d"

/-- The success response as a JSON object (the structured TranscriptionResult
shape, for comparison with what the batch endpoint actually stores). -/
def responseJson (r : TranscribeResponse) : Json :=
  .obj ([("text", .str r.text),
         ("language", match r.language with | some l => .str l | none => .null),
         ("duration", .num r.duration),
         ("filename", .str r.filename)] ++
        (match r.segments with
         | some segs =>
           [("segments", .arr (segs.map (fun s =>
             .obj [("start", .num s.start), ("end", .num s.«end»), ("text", .str s.text)])))]
         | none => []))

/-- One entry of the batch results list: filename, status, and the value
stored under the "result" key (success) or the "error" key (failure). -/
structure BatchItem where
  filename : String
  status : String
  payload : Json

instance : Inhabited BatchItem := ⟨{ filename := "", status := "", payload := .null }⟩

/-- POST /transcribe-batch (lines 138-184): drive transcribe_audio over each
file with timestamp=False, recording a success entry whose "result" value is
the decoded JSON body string, or an error entry carrying the message of the
caught exception; a failing item never aborts the loop. -/
def transcribe_batch (whisper_model : Option Engine) (unlinkOk : String → Bool)
    (files : List UploadFile) (language : Option String) (fs : FS) :
    List BatchItem × FS :=
  match files with
  | [] => ([], fs)
  | file :: rest =>
    let r := transcribe_audio whisper_model unlinkOk file language false fs
    let item : BatchItem :=
      match r.1 with
      | .ok resp =>
        { filename := file.filename, status := "success",
          payload := .str (responseBody resp) }
      | .error e =>
        { filename := file.filename, status := "error", payload := .str e.detail }
    let rest_r := transcribe_batch whisper_model unlinkOk rest language r.2
    (item :: rest_r.1, rest_r.2)

/-! Concrete artifacts shared by the witnesses below. -/

/-- An engine result with text carrying surrounding whitespace and one
segment whose text also carries surrounding whitespace. -/
def okResult : EngineResult :=
  { text := " hi ", language := some "en", duration := some 3,
    segments := some [{ start := 0, «end» := 2, text := " hello " }] }

/-- An engine that always succeeds with okResult. -/
def okEngine : Engine := fun _ _ _ => .ok okResult

/-- An engine that succeeds with okResult exactly when invoked in
auto-detect mode and raises otherwise. -/
def otherEngine : Engine := fun _ hint _ =>
  if hint.isNone then .ok okResult else .error "boom"

/-- The empty filesystem. -/
def fs0 : FS := { files := [], counter := 0 }

/-- The single-item response produced from okResult with timestamps off. -/
def okResp : TranscribeResponse :=
  { text := "hi", language := some "en", duration := 3, filename := "a.wav", segments := none }

/-! Helper lemmas. -/

theorem not_mem_unlinkAll_names (fs : FS) (p : String) : p ∉ (fs.unlinkAll p).names := by
  intro h
  rcases List.mem_map.mp h with ⟨e, he, heq⟩
  rcases List.mem_filter.mp he with ⟨_, hne⟩
  rw [heq] at hne
  simp at hne

theorem batch_length (m : Option Engine) (u : String → Bool) (l : Option String) :
    ∀ (files : List UploadFile) (fs : FS),
      (transcribe_batch m u files l fs).1.length = files.length := by
  intro files
  induction files with
  | nil => intro fs; rfl
  | cons f rest ih => intro fs; simp [transcribe_batch, ih]

theorem batch_filenames (m : Option Engine) (u : String → Bool) (l : Option String) :
    ∀ (files : List UploadFile) (fs : FS),
      (transcribe_batch m u files l fs).1.map BatchItem.filename =
        files.map UploadFile.filename := by
  intro files
  induction files with
  | nil => intro fs; rfl
  | cons f rest ih =>
    intro fs
    simp only [transcribe_batch, List.map]
    cases (transcribe_audio m u f l false fs).1 <;> simp [ih]

theorem batch_getD (m : Option Engine) (u : String → Bool) (l : Option String) :
    ∀ (files : List UploadFile) (i : Nat) (fs : FS), i < files.length →
      (transcribe_batch m u files l fs).1.getD i default =
        (match (transcribe_audio m u (files.getD i default) l false
                  (transcribe_batch m u (files.take i) l fs).2).1 with
         | .ok resp =>
           { filename := (files.getD i default).filename, status := "success",
             payload := .str (responseBody resp) }
         | .error e =>
           { filename := (files.getD i default).filename, status := "error",
             payload := .str e.detail }) := by
  intro files
  induction files with
  | nil => intro i fs h; exact absurd h (Nat.not_lt_zero i)
  | cons f rest ih =>
    intro i fs h
    cases i with
    | zero => simp [transcribe_batch]
    | succ j =>
      have hj : j < rest.length := Nat.lt_of_succ_lt_succ h
      simp only [transcribe_batch, List.getD_cons_succ, List.take_succ_cons]
      rw [ih j (transcribe_audio m u f l false fs).2 hj]

theorem transcribe_audio_ok (model : Engine) (u : String → Bool) (file : UploadFile)
    (language : Option String) (timestamp : Bool) (fs : FS) (r : EngineResult)
    (hext : pyLower (splitext file.filename).2 ∈ allowed_extensions)
    (hok : model (stagingPath file fs) (effLang language) timestamp = .ok r) :
    (transcribe_audio (some model) u file language timestamp fs).1 =
      .ok { text := pyStrip r.text,
            language := match r.language with | some l => some l | none => language,
            duration := r.duration.getD 0,
            filename := file.filename,
            segments :=
              if timestamp then
                r.segments.map (fun segs =>
                  segs.map (fun s => { start := s.start, «end» := s.«end», text := s.text }))
              else none } := by
  have hcond : ¬ (pyLower (splitext file.filename).2 ∉ allowed_extensions) :=
    not_not_intro hext
  have hp : tempName fs.counter (pyLower (splitext file.filename).2) = stagingPath file fs :=
    rfl
  simp only [transcribe_audio]
  rw [if_neg hcond, hp, hok]

/-! Claim theorems. -/

/-- Claim C1: for every call to the single-item transcribe operation that gets
past validation, whatever the engine outcome, the uniquely named temporary
staging file created for that call no longer exists on the filesystem when the
call returns.  The first conjunct shows the call does create the staging file
(it is exactly the file left behind when deletion is made to fail), the second
that under ordinary deletion it is gone on return, for every engine behaviour
(success or failure alike). -/
theorem C1_staging_cleanup (model : Engine) (file : UploadFile) (language : Option String)
    (timestamp : Bool) (fs : FS)
    (hext : pyLower (splitext file.filename).2 ∈ allowed_extensions) :
    stagingPath file fs ∈
        (transcribe_audio (some model) (fun _ => false) file language timestamp fs).2.names
    ∧ stagingPath file fs ∉
        (transcribe_audio (some model) (fun _ => true) file language timestamp fs).2.names := by
  have hcond : ¬ (pyLower (splitext file.filename).2 ∉ allowed_extensions) :=
    not_not_intro hext
  constructor
  · simp only [transcribe_audio]
    rw [if_neg hcond]
    show stagingPath file fs ∈ FS.names _
    simp [tryUnlink, FS.names, stagingPath]
  · simp only [transcribe_audio]
    rw [if_neg hcond]
    show stagingPath file fs ∉ FS.names _
    simp only [tryUnlink, if_pos rfl]
    exact not_mem_unlinkAll_names _ _

theorem C1_staging_cleanup_witness :
    (pyLower (splitext "a.wav").2 ∈ allowed_extensions)
    ∧ (stagingPath ⟨"a.wav", []⟩ fs0 ∈
        (transcribe_audio (some okEngine) (fun _ => false) ⟨"a.wav", []⟩ (some "si") true fs0).2.names
      ∧ stagingPath ⟨"a.wav", []⟩ fs0 ∉
        (transcribe_audio (some okEngine) (fun _ => true) ⟨"a.wav", []⟩ (some "si") true fs0).2.names) :=
  ⟨by decide, C1_staging_cleanup okEngine ⟨"a.wav", []⟩ (some "si") true fs0 (by decide)⟩

/-- Claim C2: a batch of N files yields exactly N outcome entries in input
order; the i-th entry is fully determined by running the single-item flow on
the i-th file in the state reached after the previous items, recording a
success entry or an error entry carrying the message of the raised error, so
no entry is omitted and a failing item never aborts the batch. -/
theorem C2_batch_outcomes (m : Option Engine) (u : String → Bool) (files : List UploadFile)
    (l : Option String) (fs : FS) (i : Nat) (h : i < files.length) :
    (transcribe_batch m u files l fs).1.length = files.length
    ∧ (transcribe_batch m u files l fs).1.map BatchItem.filename =
        files.map UploadFile.filename
    ∧ (transcribe_batch m u files l fs).1.getD i default =
        (match (transcribe_audio m u (files.getD i default) l false
                  (transcribe_batch m u (files.take i) l fs).2).1 with
         | .ok resp =>
           { filename := (files.getD i default).filename, status := "success",
             payload := .str (responseBody resp) }
         | .error e =>
           { filename := (files.getD i default).filename, status := "error",
             payload := .str e.detail }) :=
  ⟨batch_length m u l files fs, batch_filenames m u l files fs, batch_getD m u l files i fs h⟩

theorem C2_batch_outcomes_witness :
    (1 < ([⟨"a.wav", []⟩, ⟨"b.txt", []⟩] : List UploadFile).length)
    ∧ (transcribe_batch (some okEngine) (fun _ => true)
        [⟨"a.wav", []⟩, ⟨"b.txt", []⟩] (some "si") fs0).1.length = 2
    ∧ (transcribe_batch (some okEngine) (fun _ => true)
        [⟨"a.wav", []⟩, ⟨"b.txt", []⟩] (some "si") fs0).1.map BatchItem.filename =
        ["a.wav", "b.txt"]
    ∧ ((transcribe_batch (some okEngine) (fun _ => true)
        [⟨"a.wav", []⟩, ⟨"b.txt", []⟩] (some "si") fs0).1.getD 1 default).status = "error" := by
  have h := C2_batch_outcomes (some okEngine) (fun _ => true)
    [⟨"a.wav", []⟩, ⟨"b.txt", []⟩] (some "si") fs0 1 (by decide)
  refine ⟨by decide, h.1, h.2.1, ?_⟩
  rw [h.2.2]
  rfl

/-- Claim C3: with the engine loaded, any filename whose (case-insensitively
compared) extension is outside the allowed set is rejected with the 400
validation error naming the rejected extension and listing the allowed set,
and the filesystem is returned unchanged, so no temporary staging file was
created.  (When the engine is not loaded the availability check fires first;
that ordering is claim C9.) -/
theorem C3_invalid_extension_rejected (model : Engine) (u : String → Bool) (file : UploadFile)
    (language : Option String) (timestamp : Bool) (fs : FS)
    (hext : pyLower (splitext file.filename).2 ∉ allowed_extensions) :
    transcribe_audio (some model) u file language timestamp fs =
      (.error { status_code := 400,
                detail := "Unsupported file type: " ++ pyLower (splitext file.filename).2 ++
                  ". Allowed: " ++ allowedRepr }, fs) := by
  simp only [transcribe_audio]
  rw [if_pos hext]

theorem C3_invalid_extension_rejected_witness :
    (pyLower (splitext "clip.txt").2 ∉ allowed_extensions)
    ∧ transcribe_audio (some okEngine) (fun _ => true) ⟨"clip.txt", []⟩ (some "si") false fs0 =
        (.error { status_code := 400,
                  detail := "Unsupported file type: " ++ pyLower (splitext "clip.txt").2 ++
                    ". Allowed: " ++ allowedRepr }, fs0) :=
  ⟨by decide,
   C3_invalid_extension_rejected okEngine (fun _ => true) ⟨"clip.txt", []⟩ (some "si") false fs0
     (by decide)⟩

/-- Claim C4 (counterexample): the claim says a successful batch item carries
the TranscriptionResult structure as its payload, not some other
representation of it.  At this concrete input the item succeeds and the
single-item flow produces okResp, yet the stored payload is a JSON string
(the decoded response body), not the structured response object. -/
theorem C4_payload_claim_counterexample :
    ((transcribe_batch (some okEngine) (fun _ => true) [⟨"a.wav", []⟩]
        (some "si") fs0).1.getD 0 default).status = "success"
    ∧ (transcribe_audio (some okEngine) (fun _ => true) ⟨"a.wav", []⟩
        (some "si") false fs0).1 = .ok okResp
    ∧ ((transcribe_batch (some okEngine) (fun _ => true) [⟨"a.wav", []⟩]
        (some "si") fs0).1.getD 0 default).payload ≠ responseJson okResp :=
  ⟨rfl, by decide, fun h => absurd (congrArg Json.ctorIdx h) (by decide)⟩

/-- Claim C4 (amended): a successful batch item records the filename, status
success, and as payload the JSON-serialized string of the single-item
response body (result.body.decode()), not the structured response itself. -/
theorem C4_payload_serialized (m : Option Engine) (u : String → Bool) (files : List UploadFile)
    (l : Option String) (fs : FS) (i : Nat) (h : i < files.length) (resp : TranscribeResponse)
    (hok : (transcribe_audio m u (files.getD i default) l false
              (transcribe_batch m u (files.take i) l fs).2).1 = .ok resp) :
    (transcribe_batch m u files l fs).1.getD i default =
      { filename := (files.getD i default).filename, status := "success",
        payload := .str (responseBody resp) } := by
  rw [batch_getD m u l files i fs h, hok]

theorem C4_payload_serialized_witness :
    (0 < ([⟨"a.wav", []⟩] : List UploadFile).length)
    ∧ ((transcribe_audio (some okEngine) (fun _ => true)
          (([⟨"a.wav", []⟩] : List UploadFile).getD 0 default) (some "si") false
          (transcribe_batch (some okEngine) (fun _ => true)
            (([⟨"a.wav", []⟩] : List UploadFile).take 0) (some "si") fs0).2).1 = .ok okResp)
    ∧ (transcribe_batch (some okEngine) (fun _ => true) [⟨"a.wav", []⟩]
        (some "si") fs0).1.getD 0 default =
        { filename := "a.wav", status := "success", payload := .str (responseBody okResp) } :=
  ⟨by decide, by decide,
   C4_payload_serialized (some okEngine) (fun _ => true) [⟨"a.wav", []⟩] (some "si") fs0 0
     (by decide) okResp (by decide)⟩

/-- Claim C5 (counterexample): the claim says each returned segment carries
the engine text trimmed of leading and trailing whitespace.  At this concrete
input the engine returns a segment with text " hello " and the response
carries that raw text, which differs from its trimmed form. -/
theorem C5_segments_claim_counterexample :
    (transcribe_audio (some okEngine) (fun _ => true) ⟨"a.wav", []⟩ (some "si") true fs0).1 =
      .ok { text := "hi", language := some "en", duration := 3, filename := "a.wav",
            segments := some [{ start := 0, «end» := 2, text := " hello " }] }
    ∧ pyStrip " hello " ≠ " hello " :=
  ⟨by decide, by decide⟩

/-- Claim C5 (amended): on a successful single-item transcription the response
contains a segments sequence if and only if timestamps were requested and the
engine returned segment data; when present, the segments are exactly the
engine segments in order and count, each carrying the engine start, end, and
text verbatim (not trimmed). -/
theorem C5_segments_passthrough (model : Engine) (u : String → Bool) (file : UploadFile)
    (language : Option String) (timestamp : Bool) (fs : FS) (r : EngineResult)
    (hext : pyLower (splitext file.filename).2 ∈ allowed_extensions)
    (hok : model (stagingPath file fs) (effLang language) timestamp = .ok r) :
    ∃ resp, (transcribe_audio (some model) u file language timestamp fs).1 = .ok resp
      ∧ resp.segments = (if timestamp then r.segments else none)
      ∧ (resp.segments ≠ none ↔ (timestamp = true ∧ r.segments ≠ none)) := by
  have heta : (fun s : Segment =>
      ({ start := s.start, «end» := s.«end», text := s.text } : Segment)) = fun s => s := rfl
  refine ⟨_, transcribe_audio_ok model u file language timestamp fs r hext hok, ?_, ?_⟩
  · rw [heta]
    cases timestamp with
    | false => rfl
    | true => cases r.segments <;> simp
  · rw [heta]
    cases timestamp <;> cases r.segments <;> simp

theorem C5_segments_passthrough_witness :
    (pyLower (splitext "a.wav").2 ∈ allowed_extensions)
    ∧ (okEngine (stagingPath ⟨"a.wav", []⟩ fs0) (effLang (some "si")) true = .ok okResult)
    ∧ (∃ resp,
        (transcribe_audio (some okEngine) (fun _ => true) ⟨"a.wav", []⟩ (some "si") true fs0).1 =
          .ok resp
        ∧ resp.segments = (if true then okResult.segments else none)
        ∧ (resp.segments ≠ none ↔ (true = true ∧ okResult.segments ≠ none))) :=
  ⟨by decide, by decide,
   C5_segments_passthrough okEngine (fun _ => true) ⟨"a.wav", []⟩ (some "si") true fs0 okResult
     (by decide) (by decide)⟩

/-- Claim C6: the primary outcome of a single-item call (the response or the
raised error) is identical whether deletion of the staging file succeeds or
fails in any way, for every deletion oracle: a release failure is caught and
ignored, never masking or replacing the primary outcome. -/
theorem C6_release_failure_ignored (whisper_model : Option Engine) (u1 u2 : String → Bool)
    (file : UploadFile) (language : Option String) (timestamp : Bool) (fs : FS) :
    (transcribe_audio whisper_model u1 file language timestamp fs).1 =
      (transcribe_audio whisper_model u2 file language timestamp fs).1 := by
  cases whisper_model with
  | none => rfl
  | some model =>
    by_cases hext : pyLower (splitext file.filename).2 ∉ allowed_extensions
    · simp only [transcribe_audio]
      rw [if_pos hext, if_pos hext]
    · simp only [transcribe_audio]
      rw [if_neg hext, if_neg hext]

/-- Claim C7: the outcome of a single-item call depends on the engine only
through its behaviour at the hint that is the caller hint exactly when it is
si or en and auto-detect (none) for any other value; and whatever the
language value, a request with an allowed extension is never rejected with a
400 validation error (any failure is the 500 engine error). -/
theorem C7_language_hint (m1 m2 : Engine) (u : String → Bool) (file : UploadFile)
    (language : Option String) (timestamp : Bool) (fs : FS)
    (hext : pyLower (splitext file.filename).2 ∈ allowed_extensions)
    (hagree : m1 (stagingPath file fs)
        (if language = some "si" ∨ language = some "en" then language else none) timestamp
      = m2 (stagingPath file fs)
        (if language = some "si" ∨ language = some "en" then language else none) timestamp) :
    transcribe_audio (some m1) u file language timestamp fs =
      transcribe_audio (some m2) u file language timestamp fs
    ∧ ∀ e, (transcribe_audio (some m1) u file language timestamp fs).1 = .error e →
        e.status_code = 500 := by
  have hcond : ¬ (pyLower (splitext file.filename).2 ∉ allowed_extensions) :=
    not_not_intro hext
  have hp : tempName fs.counter (pyLower (splitext file.filename).2) = stagingPath file fs :=
    rfl
  have hagree2 : m1 (stagingPath file fs) (effLang language) timestamp
      = m2 (stagingPath file fs) (effLang language) timestamp := hagree
  constructor
  · simp only [transcribe_audio]
    rw [if_neg hcond, if_neg hcond, hp, hagree2]
  · intro e he
    simp only [transcribe_audio] at he
    rw [if_neg hcond, hp] at he
    revert he
    cases m1 (stagingPath file fs) (effLang language) timestamp with
    | ok r => intro he; exact absurd he (by simp)
    | error msg => intro he; cases he; rfl

theorem C7_language_hint_witness :
    (pyLower (splitext "a.wav").2 ∈ allowed_extensions)
    ∧ (okEngine (stagingPath ⟨"a.wav", []⟩ fs0)
        (if some "xx" = some "si" ∨ some "xx" = some "en" then some "xx" else none) false
      = otherEngine (stagingPath ⟨"a.wav", []⟩ fs0)
        (if some "xx" = some "si" ∨ some "xx" = some "en" then some "xx" else none) false)
    ∧ transcribe_audio (some okEngine) (fun _ => true) ⟨"a.wav", []⟩ (some "xx") false fs0 =
        transcribe_audio (some otherEngine) (fun _ => true) ⟨"a.wav", []⟩ (some "xx") false fs0 :=
  ⟨by decide, by decide,
   (C7_language_hint okEngine otherEngine (fun _ => true) ⟨"a.wav", []⟩ (some "xx") false fs0
     (by decide) (by decide)).1⟩

/-- Claim C8: every successful single-item transcription returns text equal to
the engine text with leading and trailing whitespace stripped, and echoes the
uploaded filename exactly. -/
theorem C8_text_stripped_filename_echoed (model : Engine) (u : String → Bool)
    (file : UploadFile) (language : Option String) (timestamp : Bool) (fs : FS)
    (r : EngineResult)
    (hext : pyLower (splitext file.filename).2 ∈ allowed_extensions)
    (hok : model (stagingPath file fs) (effLang language) timestamp = .ok r) :
    ∃ resp, (transcribe_audio (some model) u file language timestamp fs).1 = .ok resp
      ∧ resp.text = pyStrip r.text ∧ resp.filename = file.filename :=
  ⟨_, transcribe_audio_ok model u file language timestamp fs r hext hok, rfl, rfl⟩

theorem C8_text_stripped_filename_echoed_witness :
    (pyLower (splitext "a.wav").2 ∈ allowed_extensions)
    ∧ (okEngine (stagingPath ⟨"a.wav", []⟩ fs0) (effLang (some "si")) false = .ok okResult)
    ∧ (∃ resp,
        (transcribe_audio (some okEngine) (fun _ => true) ⟨"a.wav", []⟩ (some "si") false fs0).1 =
          .ok resp
        ∧ resp.text = pyStrip okResult.text ∧ resp.filename = "a.wav") :=
  ⟨by decide, by decide,
   C8_text_stripped_filename_echoed okEngine (fun _ => true) ⟨"a.wav", []⟩ (some "si") false fs0
     okResult (by decide) (by decide)⟩

/-- Claim C9: when the model is not loaded, every single-item call (whatever
its filename, including ones with disallowed extensions) fails with the 500
engine-unavailable error and the filesystem is untouched: the availability
check precedes extension validation, so such a request never receives the 400
validation error. -/
theorem C9_engine_check_precedes_validation (u : String → Bool) (file : UploadFile)
    (language : Option String) (timestamp : Bool) (fs : FS) :
    transcribe_audio none u file language timestamp fs =
      (.error { status_code := 500, detail := "Whisper model not loaded" }, fs) := rfl

/-- Claim C10: with the model not loaded, a batch of N files still returns
exactly N entries, each with status error and the engine-unavailable message
as payload; engine unavailability never becomes a batch-level failure. -/
theorem C10_batch_engine_unavailable (u : String → Bool) (files : List UploadFile)
    (language : Option String) (fs : FS) :
    (transcribe_batch none u files language fs).1 =
      files.map (fun f => { filename := f.filename, status := "error",
                            payload := .str "Whisper model not loaded" })
    ∧ (transcribe_batch none u files language fs).1.length = files.length := by
  refine ⟨?_, batch_length none u language files fs⟩
  induction files generalizing fs with
  | nil => rfl
  | cons f rest ih => simp [transcribe_batch, transcribe_audio, ih]

end JarvisX
